import Mathlib

/-!
Verification of the routing/orchestration core of the `propertyai` repository
(`workflow.py`, with the `RoutingDecision` model from `agents/router_agent.py`).

The Python code is shallowly embedded: each relevant Python function becomes a
Lean definition with the same structure.  External collaborators (the LLM
agents, the transcript decoder, the stream writer) are parameters: the agents
are modelled by the outcome of each invocation attempt, the decoder by a
function from a serialized transcript row to either a decoded message list or
a decode error, and the stream writer by accumulating the written strings.
-/

namespace PropertyAI

/-- The closed set of agent labels, from the `Literal` type of
`RoutingDecision.agent` in `agents/router_agent.py` (also the `Literal` type
of `ChatbotState.current_agent` in `workflow.py`). -/
inductive AgentLabel
  | lead_qualification
  | property_search
  | property_details
  | scheduling
  | market_analysis
  | faq
  | general
deriving DecidableEq

/-- Model `RoutingDecision` (agents/router_agent.py): a label from the closed set
plus a free-text rationale.  A classifier output whose label is outside the
`Literal` set fails pydantic validation, i.e. raises, which the embedding
represents as an `Except.error` classifier outcome. -/
structure RoutingDecision where
  agent : AgentLabel
  reasoning : String
deriving DecidableEq

/-- One serialized row of `ChatbotState.messages`: the byte blob produced by
`result.new_messages_json()`. Opaque to the orchestrator; modelled as a
string. -/
abbrev TranscriptEntry := String

/-- A decoded `ModelMessage`; its content is opaque to the orchestrator. -/
abbrev ModelMessage := String

/-- A transcript decoder: `ModelMessagesTypeAdapter.validate_json`.  Decoding
one row yields a list of messages or raises (modelled as `Except.error`). -/
abbrev Decoder := TranscriptEntry → Except String (List ModelMessage)

/-- Constant `MAX_HISTORY_MESSAGES = 10` (workflow.py line 25). -/
def MAX_HISTORY_MESSAGES : Nat := 10

/-- Python slice `xs[-n:]`: the last `n` elements (all of them when
`xs.length ≤ n`). -/
def takeLast (n : Nat) (xs : List α) : List α :=
  xs.drop (xs.length - n)

/-- The history-extension loop shared by `router_node` (lines 55-56) and
`_run_agent` (lines 126-127):

    for message_row in recent_messages:
        message_history.extend(ModelMessagesTypeAdapter.validate_json(message_row))

Each row decodes to a list of messages appended in order; the first decode
failure raises out of the loop (there is no try/except around it). -/
def extendHistory (d : Decoder) : List TranscriptEntry → Except String (List ModelMessage)
  | [] => .ok []
  | row :: rest => do
      let msgs ← d row
      let tail ← extendHistory d rest
      .ok (msgs ++ tail)

/-- Context-window construction, as performed identically at the top of
`router_node` (lines 52-56) and `_run_agent` (lines 123-127):
`recent_messages = state["messages"][-MAX_HISTORY_MESSAGES:]` followed by the
decode loop. -/
def buildHistory (d : Decoder) (messages : List TranscriptEntry) :
    Except String (List ModelMessage) :=
  extendHistory d (takeLast MAX_HISTORY_MESSAGES messages)

/-- A classifier: `router_agent.run(latest, message_history=..., usage_limits=...)`
followed by reading `result.output`.  Any failure (timeout, quota exceeded,
malformed/unvalidatable output) is an `Except.error`. -/
abbrev Classifier := String → List ModelMessage → Except String RoutingDecision

/-- The partial-state update returned by `router_node`: it carries only the
`routing_decision` and `current_agent` keys (no `messages` key). -/
structure RouterUpdate where
  routing_decision : Option RoutingDecision
  current_agent : Option AgentLabel
deriving DecidableEq

/-- Node `router_node` (workflow.py lines 50-79).  The decode loop runs before the
`try:` block, so a decode failure propagates out of the node; the classifier
call and output access are inside the `try:`, and any of their failures
degrades to `RoutingDecision(agent="general", reasoning="Error in routing")`. -/
def router_node (d : Decoder) (classify : Classifier)
    (messages : List TranscriptEntry) (latest_user_message : String) :
    Except String RouterUpdate := do
  let message_history ← buildHistory d messages
  match classify latest_user_message message_history with
  | .ok rd =>
      .ok { routing_decision := some rd, current_agent := some rd.agent }
  | .error _ =>
      .ok { routing_decision := some ⟨.general, "Error in routing"⟩,
            current_agent := some .general }

/-- The string form of each agent label, as stored in
`ChatbotState.current_agent`. -/
def labelToString : AgentLabel → String
  | .lead_qualification => "lead_qualification"
  | .property_search => "property_search"
  | .property_details => "property_details"
  | .scheduling => "scheduling"
  | .market_analysis => "market_analysis"
  | .faq => "faq"
  | .general => "general"

/-- The `routing_map` dict of `route_after_router` (workflow.py lines 193-201). -/
def routing_map : List (String × String) :=
  [("lead_qualification", "lead_qualification"),
   ("property_search", "property_search"),
   ("property_details", "property_details"),
   ("scheduling", "scheduling"),
   ("market_analysis", "market_analysis"),
   ("faq", "faq"),
   ("general", "general")]

/-- Function `route_after_router` (workflow.py lines 185-203).  `state.get("current_agent")`
may be absent/None (modelled `none`) or any string; a falsy value (None or the
empty string) yields `"general"`, otherwise `routing_map.get(agent, "general")`. -/
def route_after_router (current_agent : Option String) : String :=
  match current_agent with
  | none => "general"
  | some agent =>
      if agent = "" then "general"
      else (routing_map.lookup agent).getD "general"

/-- The names of the seven handler nodes (the keys of `routing_map`, equally
the node names added in `build_graph`). -/
def handlerNames : List String :=
  ["lead_qualification", "property_search", "property_details",
   "scheduling", "market_analysis", "faq", "general"]

/-- The value `result.output` of a handler agent: a plain string, a structured pydantic
object (which has `model_dump_json`), or some other non-string value whose
`str(...)` form is recorded. -/
inductive AgentOutput
  | str (s : String)
  | structured (json : String)
  | other (s : String)
deriving DecidableEq

/-- The conversion of `result.output` to `output_str` (workflow.py lines
139-144): strings pass through, objects with `model_dump_json` become `""`,
anything else becomes `str(output)`. -/
def outputToStr : AgentOutput → String
  | .str s => s
  | .structured _ => ""
  | .other s => s

/-- What one successful `agent.run` call yields: its `result.output` and the
serialized blob `result.new_messages_json()`. -/
structure SuccessValue where
  output : AgentOutput
  new_messages_json : TranscriptEntry
deriving DecidableEq

/-- The outcome of one `agent.run` attempt inside `_run_agent`: success, a
`ModelAPIError` carrying its message `str(e)`, or any other exception. -/
inductive AttemptResult
  | success (v : SuccessValue)
  | modelAPIError (msg : String)
  | otherError (msg : String)

/-- A handler agent modelled by the outcome of each invocation attempt
(attempt numbers count from 0, as in `for attempt in range(max_retries)`). -/
abbrev AgentBehavior := Nat → AttemptResult

/-- Whether `needle` is a prefix of `haystack` (character lists). -/
def listStartsWith (needle haystack : List Char) : Bool :=
  match needle, haystack with
  | [], _ => true
  | _ :: _, [] => false
  | n :: ns, h :: hs => n == h && listStartsWith ns hs

/-- Python substring containment `needle in haystack` on character lists. -/
def listContains (needle haystack : List Char) : Bool :=
  match haystack with
  | [] => needle.isEmpty
  | _ :: hs => listStartsWith needle haystack || listContains needle hs

/-- Python `s.startswith(pre)`. -/
def pyStartsWith (pre s : String) : Bool :=
  listStartsWith pre.toList s.toList

/-- Python `s.strip()`: remove leading and trailing whitespace. -/
def pyStrip (s : String) : String :=
  String.mk
    (((s.toList.dropWhile Char.isWhitespace).reverse.dropWhile
        Char.isWhitespace).reverse)

/-- The timeout test of `_run_agent` line 167:
`"timed out" in str(e).lower()`. -/
def containsTimedOut (msg : String) : Bool :=
  listContains "timed out".toList (msg.toList.map Char.toLower)

/-- Constant `max_retries = 3` (workflow.py line 130). -/
def max_retries : Nat := 3

/-- The fixed apology written on a generic (non-`ModelAPIError`) handler
failure (workflow.py lines 177-179). -/
def handlerApology : String :=
  "I apologize, but I encountered an error. Please try again or rephrase your question."

/-- How `_run_agent` ends: a normal return of a partial-state update whose
`messages` key holds the given delta, an exception propagating to the caller
(the dispatch graph), or the Python for-loop running off its end (returning
None) — the last is unreachable from attempt 0 but kept for faithfulness. -/
inductive RAOutcome
  | returnedDelta (delta : List TranscriptEntry)
  | raised (msg : String)
  | loopFellThrough
deriving DecidableEq

/-- The observable result of the `_run_agent` retry loop: how many attempts
ran, the `asyncio.sleep` delays between them, the strings passed to the
stream `writer`, and the outcome. -/
structure RunAgentResult where
  attempts : Nat
  delays : List Nat
  written : List String
  outcome : RAOutcome
deriving DecidableEq

/-- The retry loop of `_run_agent` (workflow.py lines 130-182), recursing on
the remaining loop iterations (`fuel = max_retries - attempt`).  On success
the output is converted (lines 139-144), streamed when non-blank (lines
150-161), and the turn returns `{"messages": [result.new_messages_json()]}`.
On a `ModelAPIError` whose message contains "timed out", with
`attempt < max_retries - 1`, the loop sleeps `2 ** attempt` and retries;
otherwise the error is re-raised.  On any other exception a fixed apology is
written and the turn returns `{"messages": []}`. -/
def run_agent_loop (a : AgentBehavior) : Nat → Nat → RunAgentResult
  | _, 0 => { attempts := 0, delays := [], written := [], outcome := .loopFellThrough }
  | attempt, fuel + 1 =>
      match a attempt with
      | .success v =>
          let output_str := outputToStr v.output
          { attempts := 1, delays := [],
            written :=
              if output_str ≠ "" ∧ pyStrip output_str ≠ "" then [output_str]
              else [],
            outcome := .returnedDelta [v.new_messages_json] }
      | .modelAPIError msg =>
          if containsTimedOut msg ∧ attempt < max_retries - 1 then
            let rest := run_agent_loop a (attempt + 1) fuel
            { attempts := rest.attempts + 1,
              delays := 2 ^ attempt :: rest.delays,
              written := rest.written,
              outcome := rest.outcome }
          else
            { attempts := 1, delays := [], written := [], outcome := .raised msg }
      | .otherError _ =>
          { attempts := 1, delays := [], written := [handlerApology],
            outcome := .returnedDelta [] }

/-- Helper `_run_agent` (workflow.py lines 119-182): context-window construction
(lines 123-127, outside any try/except — a decode failure raises out of the
node), then the retry loop from attempt 0.  The agent behavior receives the
constructed context, reflecting `message_history=message_history`. -/
def runAgentNode (d : Decoder) (a : List ModelMessage → AgentBehavior)
    (messages : List TranscriptEntry) (_latest_user_message : String) :
    Except String RunAgentResult := do
  let message_history ← buildHistory d messages
  .ok (run_agent_loop (a message_history) 0 max_retries)

/-! ## The dispatch graph (`build_graph`, workflow.py lines 219-262) -/

/-- The nodes of the compiled graph: the router, the seven handler nodes, and
the LangGraph `END` sentinel. -/
inductive Node
  | router
  | lead_qualification
  | property_search
  | property_details
  | scheduling
  | market_analysis
  | faq
  | general
  | END_node
deriving DecidableEq

/-- The seven handler nodes. -/
def handlerNodes : List Node :=
  [.lead_qualification, .property_search, .property_details,
   .scheduling, .market_analysis, .faq, .general]

/-- The path map of `add_conditional_edges` (workflow.py lines 237-249): the
return value of `route_after_router` selects the next node. -/
def conditional_edge_map : List (String × Node) :=
  [("lead_qualification", .lead_qualification),
   ("property_search", .property_search),
   ("property_details", .property_details),
   ("scheduling", .scheduling),
   ("market_analysis", .market_analysis),
   ("faq", .faq),
   ("general", .general)]

/-- The successor nodes of each node: the router reaches the targets of the
conditional edge map (lines 237-249); each handler has the single edge to
`END` added on lines 253-259; `END` is terminal.  The entry point is the
router (line 234). -/
def successors : Node → List Node
  | .router => conditional_edge_map.map (fun p => p.2)
  | .lead_qualification => [.END_node]
  | .property_search => [.END_node]
  | .property_details => [.END_node]
  | .scheduling => [.END_node]
  | .market_analysis => [.END_node]
  | .faq => [.END_node]
  | .general => [.END_node]
  | .END_node => []

/-- The node the conditional edge selects for a turn, given the value of
`state.get("current_agent")`. -/
def conditionalTarget (current_agent : Option String) : Option Node :=
  conditional_edge_map.lookup (route_after_router current_agent)

/-- An execution path through the graph: `Path n p` holds when `p` is the
list of nodes visited from `n` to termination at `END`, each step following
an edge of the graph. -/
inductive Path : Node → List Node → Prop
  | last : Path .END_node [.END_node]
  | step {n m : Node} {p : List Node} :
      m ∈ successors n → Path m p → Path n (n :: p)

/-! ## The per-turn transcript merge -/

/-- The reducer of `ChatbotState.messages` (workflow.py line 32):
`Annotated[List[bytes], lambda x, y: x + y]` — Python list concatenation. -/
def messagesReducer (x y : List TranscriptEntry) : List TranscriptEntry :=
  x ++ y

/-- The `messages` delta one turn merges into the session transcript.
`router_node` returns no `messages` key (lines 68-79), so only the handler
node contributes; when the handler node raises (either a decode failure or a
re-raised `ModelAPIError`), the graph run aborts and no update is merged. -/
def turnDelta : Except String RunAgentResult → List TranscriptEntry
  | .error _ => []
  | .ok r =>
      match r.outcome with
      | .returnedDelta delta => delta
      | .raised _ => []
      | .loopFellThrough => []

/-- The session transcript after one turn whose handler node produced `r`,
starting from transcript `old`. -/
def turnMessages (old : List TranscriptEntry)
    (r : Except String RunAgentResult) : List TranscriptEntry :=
  messagesReducer old (turnDelta r)

/-! ## The assistant facade (`AIAssistant`, workflow.py lines 265-357) -/

/-- A Python exception raised by the facade itself. -/
inductive PyError
  | valueError (msg : String)
deriving DecidableEq

/-- Python unpacking of a list into two assignment targets
(`t1, t2 = xs`): it succeeds exactly when the iterable yields two values. -/
def pyUnpack2 (xs : List α) : Except PyError (α × α) :=
  match xs with
  | [x, y] => .ok (x, y)
  | [] => .error (.valueError "not enough values to unpack (expected 2, got 0)")
  | [_] => .error (.valueError "not enough values to unpack (expected 2, got 1)")
  | _ => .error (.valueError "too many values to unpack (expected 2)")

/-- One event delivered by `graph.astream(..., stream_mode="custom")`: a
string written by a node via its `StreamWriter`, or a dict event. -/
inductive StreamEvent
  | strEvent (s : String)
  | dictEvent
deriving DecidableEq

/-- The body of the event-collection loop of `run_local_chat` (workflow.py
lines 319-324): keep a string event whose `strip()` is non-empty, skipping
any event string-equal to one already collected. -/
def collectStep (collected_output : List String) (event : StreamEvent) :
    List String :=
  match event with
  | .strEvent s =>
      if pyStrip s ≠ "" ∧ s ∉ collected_output then collected_output ++ [s]
      else collected_output
  | .dictEvent => collected_output

/-- The event-collection loop of `run_local_chat` (workflow.py lines
314-324), starting from the empty `collected_output`. -/
def collectOutput (events : List StreamEvent) : List String :=
  events.foldl collectStep []

/-- The fallback reply of `run_local_chat` (workflow.py line 349). -/
def defaultReply : String :=
  "I\x27m here to help you with your real estate needs. How can I assist you today?"

/-- The apology returned when the graph run raises (workflow.py line 338). -/
def facadeApology : String :=
  "I apologize, but I encountered an error. Please try again."

/-- The reply-assembly logic of `run_local_chat` (workflow.py lines 340-351):
drop falsy parts and parts starting with "[Routing to:", join, strip, and
fall back to a default greeting when empty. -/
def assembleReply (collected_output : List String) : String :=
  let response_parts := collected_output.filter
    (fun part => part != "" && !(pyStartsWith "[Routing to:" part))
  let final_response := pyStrip (String.join response_parts)
  if final_response = "" then defaultReply else final_response

/-- The execution of `graph.astream` for one turn: either the list of events
it streamed, or an exception it raised. -/
inductive TurnExec
  | streamed (events : List StreamEvent)
  | raised (msg : String)

namespace AIAssistant

/-- Method `AIAssistant.run_local_chat` (workflow.py lines 287-351).  Its first
statement past the config setup, line 295, is

    collected_output = [], previous_messages = []

a chained assignment: the right-hand side `[]` is first bound to
`collected_output`, and the second target list `([], previous_messages)` then
unpacks that same `[]`, which yields 0 values for its 2 targets, raising
`ValueError` before any state loading or graph work.  The remaining body
(lines 296-351) is kept: load previous state, stream the graph turn
(abstracted by `turn`), and on an exception return the fixed apology,
otherwise assemble the collected output. -/
def run_local_chat (turn : TurnExec)
    (_user_message _from_number : String) : Except PyError String := do
  let _collected_output : List String := []
  let _unpacked ← pyUnpack2 ([] : List String)
  match turn with
  | .raised _ => .ok facadeApology
  | .streamed events => .ok (assembleReply (collectOutput events))

/-- Method `AIAssistant.run_agent` (workflow.py lines 353-357): awaits
`run_local_chat` and returns its response. -/
def run_agent (turn : TurnExec)
    (user_message from_number : String) : Except PyError String :=
  run_local_chat turn user_message from_number

end AIAssistant

/-! ## Helper lemmas -/

theorem takeLast_append {α : Type} (n : Nat) (old recent : List α)
    (h : recent.length = n) : takeLast n (old ++ recent) = recent := by
  unfold takeLast
  rw [List.length_append, h, Nat.add_sub_cancel, List.drop_left]

theorem takeLast_self {α : Type} (n : Nat) (xs : List α)
    (h : xs.length = n) : takeLast n xs = xs := by
  unfold takeLast
  rw [h, Nat.sub_self, List.drop_zero]

theorem except_bind_ok {ε α β : Type} (a : α) (f : α → Except ε β) :
    (Except.ok a >>= f : Except ε β) = f a := rfl

theorem except_bind_error {ε α β : Type} (e : ε) (f : α → Except ε β) :
    (Except.error e >>= f : Except ε β) = Except.error e := rfl

theorem extendHistory_ok (d : Decoder) (f : TranscriptEntry → List ModelMessage) :
    ∀ rows : List TranscriptEntry, (∀ e ∈ rows, d e = .ok (f e)) →
      extendHistory d rows = .ok (rows.flatMap f) := by
  intro rows
  induction rows with
  | nil => intro _; rfl
  | cons r rest ih =>
      intro h
      have hr : d r = .ok (f r) := h r (by simp)
      have hrest := ih (fun e he => h e (by simp [he]))
      simp [extendHistory, hr, hrest, except_bind_ok]

theorem extendHistory_error (d : Decoder) :
    ∀ (pre : List TranscriptEntry) (e : TranscriptEntry)
      (post : List TranscriptEntry) (err : String),
      (∀ x ∈ pre, ∃ v, d x = .ok v) → d e = .error err →
      extendHistory d (pre ++ e :: post) = .error err := by
  intro pre
  induction pre with
  | nil =>
      intro e post err _ he
      simp [extendHistory, he, except_bind_error]
  | cons x rest ih =>
      intro e post err hpre he
      obtain ⟨v, hv⟩ := hpre x (by simp)
      have htail := ih e post err (fun y hy => hpre y (by simp [hy])) he
      simp [extendHistory, hv, htail, except_bind_ok, except_bind_error]

theorem buildHistory_window (d : Decoder) (old recent : List TranscriptEntry)
    (h : recent.length = MAX_HISTORY_MESSAGES) :
    buildHistory d (old ++ recent) = buildHistory d recent := by
  unfold buildHistory
  rw [takeLast_append _ _ _ h, takeLast_self _ _ h]

theorem lookup_mem_values {α β : Type} [BEq α] (l : List (α × β)) (a : α) (v : β) :
    l.lookup a = some v → v ∈ l.map Prod.snd := by
  induction l with
  | nil => intro h; simp [List.lookup] at h
  | cons p rest ih =>
      obtain ⟨k, b⟩ := p
      intro h
      simp only [List.lookup] at h
      cases hak : a == k with
      | true =>
          rw [hak] at h
          simp at h
          simp [h]
      | false =>
          rw [hak] at h
          simp at h
          simp [ih h]

theorem routing_map_lookup_mem {a v : String} (h : routing_map.lookup a = some v) :
    v ∈ handlerNames := by
  have hm := lookup_mem_values routing_map a v h
  rwa [show routing_map.map Prod.snd = handlerNames from rfl] at hm

theorem route_after_router_mem (ca : Option String) :
    route_after_router ca ∈ handlerNames := by
  cases ca with
  | none => simp [route_after_router, handlerNames]
  | some a =>
      by_cases ha : a = ""
      · simp [route_after_router, ha, handlerNames]
      · cases h : routing_map.lookup a with
        | none => simp [route_after_router, ha, h, handlerNames]
        | some v =>
            have hv := routing_map_lookup_mem h
            simpa [route_after_router, ha, h] using hv

/-! ## Concrete collaborators used by witnesses -/

/-- A decoder for which every row decodes to one message. -/
def dId : Decoder := fun e => .ok [e]

/-- A classifier that always fails. -/
def cFail : Classifier := fun _ _ => .error "boom"

/-- A handler whose every attempt raises a generic exception. -/
def aFail : List ModelMessage → AgentBehavior := fun _ _ => .otherError "boom"

/-- A transcript of exactly ten entries. -/
def tenEntries : List TranscriptEntry :=
  ["e1", "e2", "e3", "e4", "e5", "e6", "e7", "e8", "e9", "e10"]

/-- A decoder that fails on the row "bad" and decodes every other row. -/
def decodeSkipTest : Decoder :=
  fun e => if e = "bad" then .error "validate_json: malformed entry" else .ok [e]

/-! ## Claims -/

/-- C3: for every turn, the label used for dispatch is a member of the fixed
closed handler set; on any classifier failure the routing step degrades to
the default label "general" with the rationale "Error in routing" instead of
propagating the error; a missing routing decision or a label absent from the
dispatch mapping is remapped to "general". -/
theorem C3_routing_closure :
    (∀ ca : Option String, route_after_router ca ∈ handlerNames)
    ∧ (∀ (d : Decoder) (c : Classifier) (msgs : List TranscriptEntry)
          (latest : String) (hist : List ModelMessage) (err : String),
        buildHistory d msgs = .ok hist → c latest hist = .error err →
        router_node d c msgs latest =
          .ok { routing_decision := some ⟨.general, "Error in routing"⟩,
                current_agent := some .general })
    ∧ route_after_router none = "general"
    ∧ (∀ a : String, routing_map.lookup a = none →
        route_after_router (some a) = "general") := by
  refine ⟨route_after_router_mem, ?_, rfl, ?_⟩
  · intro d c msgs latest hist err hb hc
    simp [router_node, hb, hc, except_bind_ok]
  · intro a h
    by_cases ha : a = "" <;> simp [route_after_router, h, ha]

/-- Witness for C3: a classifier that always fails yields the default
"general" decision, and an unknown label dispatches to "general". -/
theorem C3_routing_closure_witness :
    router_node dId cFail [] "hello" =
      .ok { routing_decision := some ⟨.general, "Error in routing"⟩,
            current_agent := some .general }
    ∧ route_after_router (some "bogus_label") = "general" :=
  ⟨C3_routing_closure.2.1 dId cFail [] "hello" [] "boom" rfl rfl,
   C3_routing_closure.2.2.2 "bogus_label" rfl⟩

/-- C4: the context passed to the classifier and to the dispatched handler is
built from exactly the most recent 10 transcript entries in original order:
both nodes behave identically on `old ++ recent` and on `recent` alone when
`recent` has length 10 (older entries are excluded from context), and on a
fully decodable window the constructed context is the in-order concatenation
of whole decoded entries (the cutoff is per entry, never splitting one
entry). -/
theorem C4_context_window :
    (∀ (d : Decoder) (c : Classifier) (old recent : List TranscriptEntry)
        (latest : String), recent.length = MAX_HISTORY_MESSAGES →
        router_node d c (old ++ recent) latest = router_node d c recent latest)
    ∧ (∀ (d : Decoder) (a : List ModelMessage → AgentBehavior)
          (old recent : List TranscriptEntry) (latest : String),
        recent.length = MAX_HISTORY_MESSAGES →
        runAgentNode d a (old ++ recent) latest = runAgentNode d a recent latest)
    ∧ (∀ (d : Decoder) (msgs : List TranscriptEntry)
          (f : TranscriptEntry → List ModelMessage),
        (∀ e ∈ takeLast MAX_HISTORY_MESSAGES msgs, d e = .ok (f e)) →
        buildHistory d msgs =
          .ok ((takeLast MAX_HISTORY_MESSAGES msgs).flatMap f)) := by
  refine ⟨?_, ?_, ?_⟩
  · intro d c old recent latest h
    simp only [router_node, buildHistory_window d old recent h]
  · intro d a old recent latest h
    simp only [runAgentNode, buildHistory_window d old recent h]
  · intro d msgs f h
    exact extendHistory_ok d f _ h

/-- Witness for C4: with an eleven-entry transcript both nodes see only the
last ten entries, and a two-entry transcript decodes entry by entry. -/
theorem C4_context_window_witness :
    router_node dId cFail (["old1"] ++ tenEntries) "hi" =
      router_node dId cFail tenEntries "hi"
    ∧ runAgentNode dId aFail (["old1"] ++ tenEntries) "hi" =
      runAgentNode dId aFail tenEntries "hi"
    ∧ buildHistory dId ["a", "b"] =
      .ok ((takeLast MAX_HISTORY_MESSAGES ["a", "b"]).flatMap fun e => [e]) :=
  ⟨C4_context_window.1 dId cFail ["old1"] tenEntries "hi" rfl,
   C4_context_window.2.1 dId aFail ["old1"] tenEntries "hi" rfl,
   C4_context_window.2.2 dId ["a", "b"] (fun e => [e]) (by intro e _; rfl)⟩

/-- C5 counterexample: one malformed entry is not skipped — it aborts context
construction, both in `buildHistory` itself and in `router_node`; had the
entry been skipped the result would have been `.ok ["good1", "good2"]`. -/
theorem C5_counterexample :
    buildHistory decodeSkipTest ["good1", "bad", "good2"] =
      .error "validate_json: malformed entry"
    ∧ router_node decodeSkipTest (fun _ _ => .ok ⟨.general, "r"⟩)
        ["good1", "bad", "good2"] "hi" =
      .error "validate_json: malformed entry" := by
  constructor <;> rfl

/-- C5 amended: decoding a malformed transcript entry aborts context-window
construction: the first decode failure in the window propagates as the error
of the decode loop, and with it the whole of `router_node` and of the handler
node fails; no entry is skipped. -/
theorem C5_decode_aborts :
    (∀ (d : Decoder) (pre post : List TranscriptEntry) (e : TranscriptEntry)
        (err : String),
      (∀ x ∈ pre, ∃ v, d x = .ok v) → d e = .error err →
      extendHistory d (pre ++ e :: post) = .error err)
    ∧ (∀ (d : Decoder) (c : Classifier) (msgs : List TranscriptEntry)
          (latest err : String),
        buildHistory d msgs = .error err →
        router_node d c msgs latest = .error err)
    ∧ (∀ (d : Decoder) (a : List ModelMessage → AgentBehavior)
          (msgs : List TranscriptEntry) (latest err : String),
        buildHistory d msgs = .error err →
        runAgentNode d a msgs latest = .error err) := by
  refine ⟨?_, ?_, ?_⟩
  · intro d pre post e err hpre he
    exact extendHistory_error d pre e post err hpre he
  · intro d c msgs latest err h
    simp [router_node, h, except_bind_error]
  · intro d a msgs latest err h
    simp [runAgentNode, h, except_bind_error]

/-- Witness for C5 amended: the malformed middle entry aborts the decode loop
even though its neighbours decode. -/
theorem run_agent_loop_delta_le (a : AgentBehavior) :
    ∀ (fuel attempt : Nat) (delta : List TranscriptEntry),
      (run_agent_loop a attempt fuel).outcome = .returnedDelta delta →
      delta.length ≤ 1 := by
  intro fuel
  induction fuel with
  | zero => intro attempt delta h; simp [run_agent_loop] at h
  | succ n ih =>
      intro attempt delta h
      rcases ha : a attempt with v | m | m <;>
        simp [run_agent_loop, ha] at h
      · subst h; simp
      · split at h
        · exact ih (attempt + 1) delta h
        · simp at h
      · subst h; simp

/-- C2: a handler failure classified as a timeout is retried up to 2
additional times (3 attempts total), sleeping `2 ^ attempt` time-units
between attempts — the doubling schedule starting at 1, so the delays
performed are always the prefix of [1, 2] determined by the number of
attempts; any non-timeout failure is never retried and is terminal for the
turn; a handler that times out twice then succeeds on the third attempt
causes exactly 3 attempts with delays 1 and 2 and exactly one transcript
append, from the third attempt. -/
theorem C2_retry_backoff :
    (∀ (a : AgentBehavior) (m0 m1 : String) (v : SuccessValue),
        a 0 = .modelAPIError m0 → containsTimedOut m0 = true →
        a 1 = .modelAPIError m1 → containsTimedOut m1 = true →
        a 2 = .success v →
        run_agent_loop a 0 max_retries =
          { attempts := 3, delays := [1, 2],
            written :=
              if outputToStr v.output ≠ "" ∧ pyStrip (outputToStr v.output) ≠ ""
              then [outputToStr v.output] else [],
            outcome := .returnedDelta [v.new_messages_json] })
    ∧ (∀ (a : AgentBehavior) (m : String),
        a 0 = .modelAPIError m → containsTimedOut m = false →
        run_agent_loop a 0 max_retries =
          { attempts := 1, delays := [], written := [],
            outcome := .raised m })
    ∧ (∀ (a : AgentBehavior) (m : String),
        a 0 = .otherError m →
        run_agent_loop a 0 max_retries =
          { attempts := 1, delays := [], written := [handlerApology],
            outcome := .returnedDelta [] })
    ∧ (∀ a : AgentBehavior,
        (run_agent_loop a 0 max_retries).attempts ≤ 3 ∧
        (run_agent_loop a 0 max_retries).delays =
          [1, 2].take ((run_agent_loop a 0 max_retries).attempts - 1)) := by
  refine ⟨?_, ?_, ?_, ?_⟩
  · intro a m0 m1 v h0 t0 h1 t1 h2
    simp [run_agent_loop, max_retries, h0, t0, h1, t1, h2]
  · intro a m h0 t0
    simp [run_agent_loop, max_retries, h0, t0]
  · intro a m h0
    simp [run_agent_loop, max_retries, h0]
  · intro a
    rcases h0 : a 0 with v0 | m0 | m0 <;>
      rcases h1 : a 1 with v1 | m1 | m1 <;>
        rcases h2 : a 2 with v2 | m2 | m2 <;>
          simp [run_agent_loop, max_retries, h0, h1, h2] <;>
            split_ifs <;> simp

/-- A handler that times out on its first two attempts and succeeds on the
third with a non-empty reply. -/
def aTimeoutTwice : AgentBehavior := fun n =>
  if n = 0 then .modelAPIError "request timed out"
  else if n = 1 then .modelAPIError "request timed out again"
  else .success ⟨.str "Here are the listings.", "turn-blob"⟩

/-- Witness for C2: the timeout-timeout-success handler runs 3 attempts with
delays 1 and 2 and appends exactly the transcript blob of the third
attempt. -/
theorem C2_retry_backoff_witness :
    run_agent_loop aTimeoutTwice 0 max_retries =
      { attempts := 3, delays := [1, 2], written := ["Here are the listings."],
        outcome := .returnedDelta ["turn-blob"] } := by
  have h := C2_retry_backoff.1 aTimeoutTwice "request timed out"
    "request timed out again" ⟨.str "Here are the listings.", "turn-blob"⟩
    rfl (by decide) rfl (by decide) rfl
  rw [h]
  decide

/-- C9: a handler invocation that succeeds with an empty reply (for example
a structured, non-string output converted to the empty string) still ends
the turn normally: the transcript delta is appended, but nothing is streamed
to the caller. -/
theorem C9_empty_reply_append :
    ∀ (a : AgentBehavior) (v : SuccessValue),
      a 0 = .success v → outputToStr v.output = "" →
      run_agent_loop a 0 max_retries =
        { attempts := 1, delays := [], written := [],
          outcome := .returnedDelta [v.new_messages_json] } := by
  intro a v h0 hout
  simp [run_agent_loop, max_retries, h0, hout]

/-- Witness for C9: a structured result streams nothing yet appends its
transcript blob. -/
theorem C9_empty_reply_append_witness :
    run_agent_loop (fun _ => .success ⟨.structured "lead-form", "structured-blob"⟩)
        0 max_retries =
      { attempts := 1, delays := [], written := [],
        outcome := .returnedDelta ["structured-blob"] } :=
  C9_empty_reply_append (fun _ => .success ⟨.structured "lead-form", "structured-blob"⟩)
    ⟨.structured "lead-form", "structured-blob"⟩ rfl rfl

/-- C6: one turn appends at most one transcript entry regardless of retries,
and the transcript is append-only — the new transcript is the old one with
the delta concatenated, so the old transcript is a prefix of the new one,
every existing entry is unchanged, and the transcript never shrinks. -/
theorem C6_append_only :
    ∀ (d : Decoder) (a : List ModelMessage → AgentBehavior)
      (msgs : List TranscriptEntry) (latest : String)
      (old : List TranscriptEntry),
      (turnDelta (runAgentNode d a msgs latest)).length ≤ 1
      ∧ turnMessages old (runAgentNode d a msgs latest) =
          old ++ turnDelta (runAgentNode d a msgs latest)
      ∧ old <+: turnMessages old (runAgentNode d a msgs latest)
      ∧ (turnMessages old (runAgentNode d a msgs latest)).take old.length = old
      ∧ old.length ≤ (turnMessages old (runAgentNode d a msgs latest)).length := by
  intro d a msgs latest old
  have hdelta : (turnDelta (runAgentNode d a msgs latest)).length ≤ 1 := by
    cases hb : buildHistory d msgs with
    | error e => simp [runAgentNode, hb, except_bind_error, turnDelta]
    | ok mh =>
        simp only [runAgentNode, hb, except_bind_ok]
        cases ho : (run_agent_loop (a mh) 0 max_retries).outcome with
        | returnedDelta delta =>
            simpa [turnDelta, ho] using
              run_agent_loop_delta_le (a mh) max_retries 0 delta ho
        | raised m => simp [turnDelta, ho]
        | loopFellThrough => simp [turnDelta, ho]
  refine ⟨hdelta, rfl, List.prefix_append old _, List.take_left old _, ?_⟩
  simp [turnMessages, messagesReducer]

/-- C7 counterexample: a terminal non-timeout upstream failure
(`ModelAPIError` whose message is not a timeout) does not produce an apology
at the handler and raises past the handler node and the dispatch graph — the
outcome is a re-raised exception with nothing written, refuting that the
turn produces an apology reply and never raises past the orchestrator. -/
theorem C7_counterexample :
    run_agent_loop (fun _ => .modelAPIError "Quota exceeded for model")
        0 max_retries =
      { attempts := 1, delays := [], written := [],
        outcome := .raised "Quota exceeded for model" } := by
  decide

/-- C7 amended: on a terminal handler failure no transcript delta is ever
appended, and the reply behavior splits by failure class: a non-`ModelAPIError`
exception makes the handler write the fixed apology and return normally
(no raise), while a terminal `ModelAPIError` (non-timeout, or a third
consecutive timeout) re-raises past the handler node with no apology written
there — it is absorbed only at the facade boundary. -/
theorem C7_terminal_failure :
    (∀ (a : AgentBehavior) (m : String), a 0 = .otherError m →
        run_agent_loop a 0 max_retries =
          { attempts := 1, delays := [], written := [handlerApology],
            outcome := .returnedDelta [] })
    ∧ (∀ (a : AgentBehavior) (m : String),
        a 0 = .modelAPIError m → containsTimedOut m = false →
        (run_agent_loop a 0 max_retries).outcome = .raised m
        ∧ (run_agent_loop a 0 max_retries).written = [])
    ∧ (∀ (a : AgentBehavior) (m0 m1 m2 : String),
        a 0 = .modelAPIError m0 → containsTimedOut m0 = true →
        a 1 = .modelAPIError m1 → containsTimedOut m1 = true →
        a 2 = .modelAPIError m2 → containsTimedOut m2 = true →
        run_agent_loop a 0 max_retries =
          { attempts := 3, delays := [1, 2], written := [],
            outcome := .raised m2 })
    ∧ (∀ (r : RunAgentResult) (m : String), r.outcome = .raised m →
        turnDelta (.ok r) = [])
    ∧ (∀ err : String, turnDelta (.error err) = []) := by
  refine ⟨?_, ?_, ?_, ?_, fun _ => rfl⟩
  · intro a m h0
    simp [run_agent_loop, max_retries, h0]
  · intro a m h0 t0
    simp [run_agent_loop, max_retries, h0, t0]
  · intro a m0 m1 m2 h0 t0 h1 t1 h2 t2
    simp [run_agent_loop, max_retries, h0, t0, h1, t1, h2, t2]
  · intro r m h
    simp [turnDelta, h]

/-- Witness for C7 amended: three consecutive timeouts exhaust the retries
and re-raise with nothing written. -/
theorem C7_terminal_failure_witness :
    run_agent_loop (fun _ => .modelAPIError "Read timed out.") 0 max_retries =
      { attempts := 3, delays := [1, 2], written := [],
        outcome := .raised "Read timed out." } :=
  C7_terminal_failure.2.2.1 (fun _ => .modelAPIError "Read timed out.")
    "Read timed out." "Read timed out." "Read timed out."
    rfl (by decide) rfl (by decide) rfl (by decide)

theorem C5_decode_aborts_witness :
    extendHistory decodeSkipTest (["good1"] ++ "bad" :: ["good2"]) =
      .error "validate_json: malformed entry" :=
  C5_decode_aborts.1 decodeSkipTest ["good1"] ["good2"] "bad"
    "validate_json: malformed entry"
    (by intro x hx
        simp only [List.mem_singleton] at hx
        subst hx
        exact ⟨["good1"], rfl⟩)
    rfl

/-- C1 (code_bug evidence): `run_local_chat` — and with it `run_agent`, which
merely awaits it — raises `ValueError` on every input, before any routing or
handler work: line 295 chain-assigns `[]` and then unpacks it into the
two-target list `([], previous_messages)`.  No caller of the facade ever
receives a reply. -/
theorem C1_facade_always_raises :
    ∀ (turn : TurnExec) (user_message from_number : String),
      AIAssistant.run_local_chat turn user_message from_number =
        .error (.valueError "not enough values to unpack (expected 2, got 0)")
      ∧ AIAssistant.run_agent turn user_message from_number =
        .error (.valueError "not enough values to unpack (expected 2, got 0)") :=
  fun _ _ _ => ⟨rfl, rfl⟩

theorem successors_handler : ∀ n ∈ handlerNodes, successors n = [.END_node] := by
  decide

theorem path_end (p : List Node) (hp : Path .END_node p) : p = [.END_node] := by
  cases hp with
  | last => rfl
  | step hmem _ => simp [successors] at hmem

theorem path_handler (n : Node) (hn : n ∈ handlerNodes) (p : List Node)
    (hp : Path n p) : p = [n, .END_node] := by
  cases hp with
  | last => simp [handlerNodes] at hn
  | step hmem htail =>
      rename_i m p'
      rw [successors_handler n hn] at hmem
      simp only [List.mem_singleton] at hmem
      subst hmem
      rw [path_end p' htail]

/-- C8: the dispatch graph is traversed exactly once per turn: every
execution path from the entry node is the router, then exactly one handler
node, then `END` — no reentry into the router and no fan-out — and the
conditional edge taken after the router always selects exactly one handler
node. -/
theorem C8_single_dispatch :
    (∀ p : List Node, Path .router p →
        ∃ h, h ∈ handlerNodes ∧ p = [.router, h, .END_node])
    ∧ (∀ ca : Option String,
        ∃ h, conditionalTarget ca = some h ∧ h ∈ handlerNodes) := by
  constructor
  · intro p hp
    cases hp with
    | step hmem htail =>
        rename_i m p'
        have hm : m ∈ handlerNodes := by
          rw [show successors .router = handlerNodes from rfl] at hmem
          exact hmem
        exact ⟨m, hm, by rw [path_handler m hm p' htail]⟩
  · intro ca
    have hmem := route_after_router_mem ca
    unfold conditionalTarget
    rcases (by simpa [handlerNames] using hmem :
        route_after_router ca = "lead_qualification" ∨
        route_after_router ca = "property_search" ∨
        route_after_router ca = "property_details" ∨
        route_after_router ca = "scheduling" ∨
        route_after_router ca = "market_analysis" ∨
        route_after_router ca = "faq" ∨
        route_after_router ca = "general")
      with h | h | h | h | h | h | h <;> rw [h] <;> exact ⟨_, rfl, by decide⟩

/-- Witness for C8: the path router → general → END is an execution of the
graph and has the single-dispatch shape. -/
theorem C8_single_dispatch_witness :
    ∃ h, h ∈ handlerNodes ∧
      ([Node.router, Node.general, Node.END_node] : List Node) =
        [Node.router, h, Node.END_node] :=
  C8_single_dispatch.1 [Node.router, Node.general, Node.END_node]
    (Path.step (by decide) (Path.step (by decide) Path.last))

theorem collectStep_nodup (acc : List String) (e : StreamEvent)
    (h : acc.Nodup) : (collectStep acc e).Nodup := by
  cases e with
  | dictEvent => exact h
  | strEvent s =>
      simp only [collectStep]
      split
      · rename_i hc
        rw [List.nodup_append]
        refine ⟨h, List.nodup_singleton s, ?_⟩
        intro a ha hb
        simp only [List.mem_singleton] at hb
        subst hb
        exact hc.2 ha
      · exact h

theorem collect_foldl_nodup :
    ∀ (events : List StreamEvent) (acc : List String), acc.Nodup →
      (events.foldl collectStep acc).Nodup := by
  intro events
  induction events with
  | nil => intro acc h; exact h
  | cons e rest ih => intro acc h; exact ih _ (collectStep_nodup acc e h)

theorem collectStep_mem_mono {acc : List String} {s : String}
    (e : StreamEvent) (h : s ∈ acc) : s ∈ collectStep acc e := by
  cases e with
  | dictEvent => exact h
  | strEvent t =>
      simp only [collectStep]
      split
      · exact List.mem_append_left _ h
      · exact h

theorem collectStep_mem_self {acc : List String} {s : String}
    (hs : pyStrip s ≠ "") : s ∈ collectStep acc (.strEvent s) := by
  simp only [collectStep]
  split
  · exact List.mem_append_right _ (by simp)
  · rename_i hc
    by_cases hm : s ∈ acc
    · exact hm
    · exact absurd ⟨hs, hm⟩ hc

theorem collect_foldl_mem (s : String) (hs : pyStrip s ≠ "") :
    ∀ (events : List StreamEvent) (acc : List String),
      (StreamEvent.strEvent s ∈ events ∨ s ∈ acc) →
      s ∈ events.foldl collectStep acc := by
  intro events
  induction events with
  | nil =>
      intro acc h
      rcases h with h | h
      · simp at h
      · exact h
  | cons e rest ih =>
      intro acc h
      simp only [List.foldl_cons]
      rcases h with h | h
      · rcases List.mem_cons.mp h with he | he
        · cases he
          exact ih _ (Or.inr (collectStep_mem_self hs))
        · exact ih _ (Or.inl he)
      · exact ih _ (Or.inr (collectStep_mem_mono e h))

/-- C10: when assembling the final reply, the facade drops any streamed chunk
string-equal to one already collected that turn — the collected list has no
duplicates, and a non-blank chunk emitted any number of times is collected
exactly once — and chunks beginning with "[Routing to:" are excluded from
the reply: deleting them from the collected list leaves the assembled reply
unchanged, and concretely a handler emitting "Sure!" twice plus a routing
banner yields the reply "Sure!". -/
theorem C10_dedup_and_banner :
    (∀ events : List StreamEvent, (collectOutput events).Nodup)
    ∧ (∀ (events : List StreamEvent) (s : String),
        StreamEvent.strEvent s ∈ events → pyStrip s ≠ "" →
        (collectOutput events).count s = 1)
    ∧ (∀ collected : List String,
        assembleReply (collected.filter
          (fun p => !(pyStartsWith "[Routing to:" p))) = assembleReply collected)
    ∧ assembleReply (collectOutput
        [.strEvent "Sure!", .strEvent "[Routing to: general]",
         .strEvent "Sure!"]) = "Sure!" := by
  refine ⟨?_, ?_, ?_, by decide⟩
  · intro events
    exact collect_foldl_nodup events [] List.nodup_nil
  · intro events s hmem hs
    exact List.count_eq_one_of_mem
      (collect_foldl_nodup events [] List.nodup_nil)
      (collect_foldl_mem s hs events [] (Or.inl hmem))
  · intro collected
    have hfe : (collected.filter (fun p => !(pyStartsWith "[Routing to:" p))).filter
          (fun part => part != "" && !(pyStartsWith "[Routing to:" part))
        = collected.filter
          (fun part => part != "" && !(pyStartsWith "[Routing to:" part)) := by
      rw [List.filter_filter]
      apply List.filter_congr
      intro a _
      cases pyStartsWith "[Routing to:" a <;> cases a != "" <;> rfl
    simp only [assembleReply]
    rw [hfe]

/-- Witness for C10: a chunk emitted twice in one turn is collected exactly
once. -/
theorem C10_dedup_and_banner_witness :
    (collectOutput [.strEvent "Okay.", .strEvent "Okay."]).count "Okay." = 1 :=
  C10_dedup_and_banner.2.1 [.strEvent "Okay.", .strEvent "Okay."] "Okay."
    (by decide) (by decide)

end PropertyAI
